import Mathlib

set_option maxRecDepth 100000

/-!
Shallow embedding of the `json_decoding` PostgreSQL logical-decoding output
plugin (src/json_decoding.c) and proofs about the claims of its
specification.

Host (PostgreSQL) primitives that the plugin calls — `parse_bool`,
`quote_identifier`, type output functions, `timestamptz_to_str` — are
external collaborators of the plugin.  They are modelled here at the level
the plugin observes them: column values and commit timestamps carry the
textual representation the host output function would produce, and
`parse_bool` / `quote_identifier` are reproduced from their documented host
behaviour.  Everything under the `pg_decode_*` / `tuple_to_json_fields` /
`print_literal` names is translated directly from src/json_decoding.c.
-/

/-- A startup option as delivered to the plugin: a `DefElem` with `defname`
and an optional string argument (`elem->arg`, `NULL` when absent). -/
structure DefElem where
  defname : String
  arg : Option String
  deriving Repr, DecidableEq

/-- The plugin's per-session state, `JsonDecodingData` in the source.  The
memory context is resource management and is not part of the functional
state; `commit_time` carries the textual form that `timestamptz_to_str`
yields for the stored `TimestampTz`. -/
structure JsonDecodingData where
  include_xids : Bool
  include_timestamp : Bool
  skip_empty_xacts : Bool
  xact_wrote_changes : Bool
  only_local : Bool
  include_messages : Bool
  include_toast_datum : Bool
  xid : Nat
  commit_time : String
  deriving Repr, DecidableEq

/-- ASCII lowercasing of one character (`pg_strncasecmp` folds case per
ASCII). -/
def asciiToLower (c : Char) : Char :=
  if 65 <= c.toNat && c.toNat <= 90 then Char.ofNat (c.toNat + 32) else c

/-- The characters of a string, ASCII-lowercased. -/
def lowerChars (s : String) : List Char :=
  s.toList.map asciiToLower

/-- Whether the first character list is a prefix of the second. -/
def charsPrefixOf : List Char → List Char → Bool
  | [], _ => true
  | _ :: _, [] => false
  | c :: cs, d :: ds => (c = d) && charsPrefixOf cs ds

/-- Modelled from the host: PostgreSQL `parse_bool` (bool.c,
`parse_bool_with_len`): case-insensitive nonempty prefixes of
true/false/yes/no, exactly on/off, and 1/0. -/
def parse_bool (value : String) : Option Bool :=
  let v := lowerChars value
  if v.isEmpty then none
  else if charsPrefixOf v ("true".toList) then some true
  else if charsPrefixOf v ("false".toList) then some false
  else if charsPrefixOf v ("yes".toList) then some true
  else if charsPrefixOf v ("no".toList) then some false
  else if v = "on".toList then some true
  else if v = "off".toList then some false
  else if v = "1".toList then some true
  else if v = "0".toList then some false
  else none

/-- `hasParameter` from the source: `strcmp(elem->defname, param) == 0`. -/
def hasParameter (elem : DefElem) (param : String) : Bool :=
  elem.defname == param

/-- The ways `pg_decode_startup` can abort.  `unknownParam` and
`invalidParamValue` are the two `ereport(ERROR, ...)` helpers of the
source (`reportUnknownParam`, `reportErrorInvalidParam`), each carrying the
offending option's name and value.  `nullValueDereference` models the
undefined behaviour of evaluating `strVal(elem->arg)` when `elem->arg` is
`NULL` (reachable in the source's `only-local` branch). -/
inductive StartupError where
  | unknownParam (name : String) (value : Option String)
  | invalidParamValue (name : String) (value : Option String)
  | nullValueDereference (name : String)
  deriving Repr, DecidableEq

/-- Result of startup: the session data plus `opt->receive_rewrites`. -/
structure StartupState where
  data : JsonDecodingData
  receive_rewrites : Bool
  deriving Repr, DecidableEq

/-- The session data as initialized at the top of `pg_decode_startup`
(`palloc0` zeroes `xact_wrote_changes`, `xid` and `commit_time`; the six
policy booleans are then set to their documented defaults). -/
def initialJsonDecodingData : JsonDecodingData :=
  { include_xids := true
    include_timestamp := true
    skip_empty_xacts := true
    xact_wrote_changes := false
    only_local := false
    include_messages := false
    include_toast_datum := true
    xid := 0
    commit_time := "" }

/-- The source idiom `!parse_bool(strVal(elem->arg), &x)`: evaluate
`strVal(elem->arg)` — a null dereference when the argument is absent — and
parse it as a boolean, reporting `reportErrorInvalidParam(elem)` on parse
failure. -/
def parseBoolArg (elem : DefElem) : Except StartupError Bool :=
  match elem.arg with
  | some v =>
    match parse_bool v with
    | some b => Except.ok b
    | none => Except.error (StartupError.invalidParamValue elem.defname elem.arg)
  | none => Except.error (StartupError.nullValueDereference elem.defname)

/-- One iteration of the option-processing loop in `pg_decode_startup`,
with the same branch structure and guard conditions as the source. -/
def processOption (st : StartupState) (elem : DefElem) : Except StartupError StartupState :=
  if hasParameter elem "include-xids" && elem.arg.isSome then
    (parseBoolArg elem).map fun b => { st with data := { st.data with include_xids := b } }
  else if hasParameter elem "include-timestamp" && elem.arg.isSome then
    (parseBoolArg elem).map fun b => { st with data := { st.data with include_timestamp := b } }
  else if hasParameter elem "skip-empty-xacts" && elem.arg.isSome then
    (parseBoolArg elem).map fun b => { st with data := { st.data with skip_empty_xacts := b } }
  else if hasParameter elem "only-local" then
    match elem.arg with
    | some _ => Except.ok { st with data := { st.data with only_local := true } }
    | none => (parseBoolArg elem).map fun b => { st with data := { st.data with only_local := b } }
  else if hasParameter elem "include-rewrites" && elem.arg.isSome then
    (parseBoolArg elem).map fun b => { st with receive_rewrites := b }
  else if hasParameter elem "include-toast-datum" && elem.arg.isSome then
    (parseBoolArg elem).map fun b => { st with data := { st.data with include_toast_datum := b } }
  else
    Except.error (StartupError.unknownParam elem.defname elem.arg)

/-- The `foreach(option, ctx->output_plugin_options)` loop of
`pg_decode_startup`; an `ereport(ERROR, ...)` aborts the whole startup. -/
def startupFold (st : StartupState) (opts : List DefElem) : Except StartupError StartupState :=
  match opts with
  | [] => Except.ok st
  | elem :: rest =>
    match processOption st elem with
    | Except.ok st2 => startupFold st2 rest
    | Except.error e => Except.error e

/-- `pg_decode_startup`: build the default session data, then process the
supplied options in order. -/
def pg_decode_startup (options : List DefElem) : Except StartupError StartupState :=
  startupFold { data := initialJsonDecodingData, receive_rewrites := false } options

/-- The type identifiers `print_literal` dispatches on (OIDs from
pg_type.h), with a catch-all for every other type; `other` carries the
type name and its catalog varlena-ness (`typlen = -1`), which the source
obtains from `getTypeOutputInfo`. -/
inductive PgType where
  | int2
  | int4
  | int8
  | oid
  | float4
  | float8
  | numeric
  | bit
  | varbit
  | bool
  | other (name : String) (isVarlena : Bool)
  deriving Repr, DecidableEq

/-- Catalog varlena-ness (`typisvarlena` out-parameter of
`getTypeOutputInfo`): the fixed-length scalars are not varlena; numeric
and the bit-string types are; other types carry it in the descriptor. -/
def typisvarlena : PgType → Bool
  | PgType.int2 => false
  | PgType.int4 => false
  | PgType.int8 => false
  | PgType.oid => false
  | PgType.float4 => false
  | PgType.float8 => false
  | PgType.bool => false
  | PgType.numeric => true
  | PgType.bit => true
  | PgType.varbit => true
  | PgType.other _ v => v

/-- A non-NULL column value as the plugin observes it: the datum paired
with the text its type output function produces.  `externalOnDisk` is a
varlena datum for which `VARATT_IS_EXTERNAL_ONDISK` holds; its text is
what materializing (detoasting) it would yield. -/
inductive ColumnDatum where
  | inline (text : String)
  | externalOnDisk (text : String)
  deriving Repr, DecidableEq

/-- `VARATT_IS_EXTERNAL_ONDISK` on the datum. -/
def isExternalOnDisk : ColumnDatum → Bool
  | ColumnDatum.inline _ => false
  | ColumnDatum.externalOnDisk _ => true

/-- The textual representation `OidOutputFunctionCall` produces for the
datum (after `PG_DETOAST_DATUM` in the external case). -/
def datumText : ColumnDatum → String
  | ColumnDatum.inline t => t
  | ColumnDatum.externalOnDisk t => t

/-- One attribute of a tuple descriptor (`Form_pg_attribute`): name, type,
ordinal attribute number (negative for system columns), dropped flag. -/
structure PgAttribute where
  attname : String
  atttypid : PgType
  attnum : Int
  attisdropped : Bool
  deriving Repr, DecidableEq

/-- `isSystemColumn` from the source: `attr->attnum < 0`. -/
def isSystemColumn (attr : PgAttribute) : Bool :=
  attr.attnum < 0

/-- `isColumnDeleted` from the source: `attr->attisdropped`. -/
def isColumnDeleted (attr : PgAttribute) : Bool :=
  attr.attisdropped

/-- A row image (`HeapTuple`) aligned with the tuple descriptor; `none` is
a NULL attribute.  `heap_getattr` past the end of the stored tuple reads
as NULL. -/
def heap_getattr (tuple : List (Option ColumnDatum)) (natt : Nat) : Option ColumnDatum :=
  tuple.getD natt none

/-- Modelled from the host: `quote_identifier` (ruleutils.c) quotes only
when needed — a safe identifier starts with a lowercase letter or
underscore and continues with lowercase letters, digits or underscores —
and doubles embedded double quotes when it does quote.  The host's SQL
keyword check is omitted; no identifier in this development is a keyword. -/
def isSafeIdentFirst (c : Char) : Bool :=
  c.isLower || c = '_'

/-- Continuation characters of an identifier that needs no quoting. -/
def isSafeIdentRest (c : Char) : Bool :=
  c.isLower || c.isDigit || c = '_'

/-- Whether `quote_identifier` must quote the identifier. -/
def identNeedsQuotes (s : String) : Bool :=
  match s.toList with
  | [] => true
  | c :: rest => !(isSafeIdentFirst c) || rest.any (fun d => !(isSafeIdentRest d))

/-- Host `quote_identifier`: quote only if needed, doubling embedded
double quotes. -/
def quote_identifier (s : String) : String :=
  if identNeedsQuotes s then
    "\"" ++ String.join (s.toList.map (fun c => if c = '"' then "\"\"" else String.mk [c])) ++ "\""
  else s

/-- Host `quote_qualified_identifier`: qualifier and name, each quoted as
needed, joined by a dot. -/
def quote_qualified_identifier (qualifier name : String) : String :=
  quote_identifier qualifier ++ "." ++ quote_identifier name

/-- The `SQL_STR_DOUBLE(ch, escape_backslash)` macro of the host
(c.h): true for a single-quote character, or for a backslash when
`escape_backslash` is set. -/
def SQL_STR_DOUBLE (ch : Char) (escape_backslash : Bool) : Bool :=
  ch = '\x27' || (ch = '\\' && escape_backslash)

/-- `print_literal` from the source: type-aware JSON literal spelling of a
value's textual representation.  The default branch appends each character
once, preceded by a copy of itself when `SQL_STR_DOUBLE(ch, false)` holds. -/
def print_literal (typid : PgType) (outputstr : String) : String :=
  match typid with
  | PgType.int2 => outputstr
  | PgType.int4 => outputstr
  | PgType.int8 => outputstr
  | PgType.oid => outputstr
  | PgType.float4 => outputstr
  | PgType.float8 => outputstr
  | PgType.numeric => outputstr
  | PgType.bit => "\"" ++ outputstr ++ "\""
  | PgType.varbit => "\"" ++ outputstr ++ "\""
  | PgType.bool => if outputstr = "t" then "true" else "false"
  | PgType.other _ _ =>
    "\"" ++
    String.join (outputstr.toList.map (fun ch =>
      if SQL_STR_DOUBLE ch false then String.mk [ch, ch] else String.mk [ch])) ++
    "\""

/-- The text the loop body of `tuple_to_json_fields` appends for attribute
number `natt` (empty when the column is skipped).  The comma is governed by
`natt > 0` exactly as in the source, independently of whether any earlier
attribute was actually emitted. -/
def tupleFieldAt (tupdesc : List PgAttribute) (tuple : List (Option ColumnDatum))
    (skip_nulls include_toast_datum : Bool) (natt : Nat) : String :=
  match tupdesc.get? natt with
  | none => ""
  | some attr =>
    if isColumnDeleted attr || isSystemColumn attr then ""
    else
      match heap_getattr tuple natt with
      | none =>
        if skip_nulls then ""
        else
          (if natt > 0 then "," else "") ++
          " \"" ++ quote_identifier attr.attname ++ "\"" ++ ":" ++ " " ++ "null"
      | some origval =>
        (if natt > 0 then "," else "") ++
        " \"" ++ quote_identifier attr.attname ++ "\"" ++ ":" ++ " " ++
        (if typisvarlena attr.atttypid && isExternalOnDisk origval && !include_toast_datum then
          "unchanged-toast-datum"
        else
          print_literal attr.atttypid (datumText origval))

/-- `tuple_to_json_fields` from the source: iterate `natt` over the tuple
descriptor, appending each attribute's contribution. -/
def tuple_to_json_fields (tupdesc : List PgAttribute) (tuple : List (Option ColumnDatum))
    (skip_nulls include_toast_datum : Bool) : String :=
  String.join ((List.range tupdesc.length).map
    (tupleFieldAt tupdesc tuple skip_nulls include_toast_datum))

/-- The relation metadata `pg_decode_change` reads: namespace name,
relation name, and — when `class_form->relrewrite` is a valid OID — the
name of the rewrite source relation; plus the tuple descriptor
(`RelationGetDescr`). -/
structure RelationInfo where
  nspname : String
  relname : String
  relrewrite : Option String
  tupdesc : List PgAttribute
  deriving Repr, DecidableEq

/-- The transaction fields the plugin reads from `ReorderBufferTXN`:
`xid`, and `commit_time` in the textual form `timestamptz_to_str`
produces. -/
structure ReorderBufferTXN where
  xid : Nat
  commit_time : String
  deriving Repr, DecidableEq

/-- The change actions: the three the plugin handles, and `otherAction`
covering every remaining `REORDER_BUFFER_CHANGE_*` enumerator (carried as
a numeric tag). -/
inductive ChangeAction where
  | insert
  | update
  | delete
  | otherAction (tag : Nat)
  deriving Repr, DecidableEq

/-- The parts of `ReorderBufferChange` the plugin reads: the action and
the optional old/new tuples. -/
structure ReorderBufferChange where
  action : ChangeAction
  oldtuple : Option (List (Option ColumnDatum))
  newtuple : Option (List (Option ColumnDatum))
  deriving Repr, DecidableEq

/-- The failure of `pg_decode_change`: the `default: Assert(false)` arm of
its switch, modelled as fatal (assert-enabled semantics, matching the
spec's reading of an unknown action as an internal-consistency error). -/
inductive ChangeError where
  | assertionFailedUnknownAction
  deriving Repr, DecidableEq

/-- `pg_output_begin` from the source: capture the transaction id and the
commit timestamp into the session data as configured.  It writes nothing
to the output stream.  The `last_write` argument of the source is unused
in its body. -/
def pg_output_begin (data : JsonDecodingData) (txn : ReorderBufferTXN)
    (_last_write : Bool) : JsonDecodingData :=
  let d1 := if data.include_xids then { data with xid := txn.xid } else data
  if d1.include_timestamp then { d1 with commit_time := txn.commit_time } else d1

/-- `pg_decode_begin` from the source: reset `xact_wrote_changes`; when
empty transactions are not skipped, run `pg_output_begin` immediately.  The
second component is the list of records written to the output stream (none
here — `pg_output_begin` emits nothing). -/
def pg_decode_begin (data : JsonDecodingData) (txn : ReorderBufferTXN) :
    JsonDecodingData × List String :=
  let d := { data with xact_wrote_changes := false }
  if d.skip_empty_xacts then (d, [])
  else (pg_output_begin d txn true, [])

/-- `pg_decode_commit` from the source: an empty body — no state change,
no output. -/
def pg_decode_commit (data : JsonDecodingData) (_txn : ReorderBufferTXN) :
    JsonDecodingData × List String :=
  (data, [])

/-- `InvalidRepOriginId` of the host. -/
def InvalidRepOriginId : Nat := 0

/-- `pg_decode_filter` from the source: suppress the change when
`only_local` is set and the origin is not the invalid (local) origin. -/
def pg_decode_filter (data : JsonDecodingData) (origin_id : Nat) : Bool :=
  data.only_local && origin_id != InvalidRepOriginId

/-- The header `pg_decode_change` writes before the action switch: table
identity (rewrite target name when `relrewrite` is set), then the optional
timestamp and xid fields, then the operation-tag key. -/
def changeRecordHeader (data : JsonDecodingData) (txn : ReorderBufferTXN)
    (relation : RelationInfo) : String :=
  "\x7b \"pg_change_table\": \"" ++
  quote_qualified_identifier relation.nspname
    (match relation.relrewrite with
     | some rewriteName => rewriteName
     | none => relation.relname) ++
  "\", " ++
  (if data.include_timestamp then
    "\"pg_change_tnx_time\": \"" ++ txn.commit_time ++ "\", "
  else "") ++
  (if data.include_xids then
    "\"pg_change_tnx_id\": " ++ toString txn.xid ++ ", "
  else "") ++
  " \"pg_change_type\": "

/-- The switch on `change->action` in `pg_decode_change`: operation tag
followed by the tuple fields (old-primary-key block first for UPDATE).
The `default` arm is `Assert(false)`. -/
def changeActionBody (data : JsonDecodingData) (relation : RelationInfo)
    (change : ReorderBufferChange) : Except ChangeError String :=
  match change.action with
  | ChangeAction.insert =>
    Except.ok ("\"INSERT\", " ++
      (match change.newtuple with
       | some t => tuple_to_json_fields relation.tupdesc t false data.include_toast_datum
       | none => ""))
  | ChangeAction.update =>
    Except.ok ("\"UPDATE\", " ++
      (match change.oldtuple with
       | some t =>
         " \"old_primary_key\": \x7b " ++
         tuple_to_json_fields relation.tupdesc t true data.include_toast_datum ++
         " \x7d, "
       | none => "") ++
      (match change.newtuple with
       | some t => tuple_to_json_fields relation.tupdesc t false data.include_toast_datum
       | none => ""))
  | ChangeAction.delete =>
    Except.ok ("\"DELETE\", " ++
      (match change.oldtuple with
       | some t => tuple_to_json_fields relation.tupdesc t true data.include_toast_datum
       | none => ""))
  | ChangeAction.otherAction _ => Except.error ChangeError.assertionFailedUnknownAction

/-- `pg_decode_change` from the source: run the deferred
`pg_output_begin` when needed, mark the transaction as having written
changes, then emit exactly one record — header, action body, closing
brace — through `OutputPluginWrite`.  On the `Assert(false)` arm nothing
is written. -/
def pg_decode_change (data : JsonDecodingData) (txn : ReorderBufferTXN)
    (relation : RelationInfo) (change : ReorderBufferChange) :
    Except ChangeError (JsonDecodingData × String) :=
  let data1 :=
    if data.skip_empty_xacts && !data.xact_wrote_changes then
      pg_output_begin data txn false
    else data
  let data2 := { data1 with xact_wrote_changes := true }
  match changeActionBody data2 relation change with
  | Except.ok body =>
    Except.ok (data2, changeRecordHeader data2 txn relation ++ body ++ " \x7d")
  | Except.error e => Except.error e

/-- The record text of a `pg_decode_change` result, when one was written. -/
def changeText (r : Except ChangeError (JsonDecodingData × String)) : Option String :=
  match r with
  | Except.ok p => some p.2
  | Except.error _ => none

/-- Modelled from the spec: JSON insignificant whitespace. -/
def isJsonWs (c : Char) : Bool :=
  c = ' ' || c = '\n' || c = '\t' || c = '\r'

/-- Drop leading JSON whitespace. -/
def skipJsonWs : List Char → List Char
  | [] => []
  | c :: rest => if isJsonWs c then skipJsonWs rest else c :: rest

/-- Modelled from the spec: scan a JSON string body (after the opening
quote) up to its closing quote, returning the remainder.  Permissive about
which characters may appear or be escaped, so that rejection is sound for
the strict grammar. -/
def jsonStringRest : List Char → Option (List Char)
  | [] => none
  | '"' :: rest => some rest
  | '\\' :: [] => none
  | '\\' :: _ :: rest => jsonStringRest rest
  | _ :: rest => jsonStringRest rest

/-- Characters a (permissively scanned) JSON number may contain. -/
def isNumberChar (c : Char) : Bool :=
  c.isDigit || c = '-' || c = '+' || c = '.' || c = 'e' || c = 'E'

/-- Consume the remaining characters of a number token. -/
def munchNumber : List Char → List Char
  | [] => []
  | c :: rest => if isNumberChar c then munchNumber rest else c :: rest

mutual

/-- Modelled from the spec: scan one JSON value, returning the remainder.
Numbers are scanned permissively (any run of number characters), so a
`none` verdict is sound for the strict JSON grammar. -/
def jsonValueRest : Nat → List Char → Option (List Char)
  | 0, _ => none
  | Nat.succ fuel, cs =>
    match skipJsonWs cs with
    | [] => none
    | '"' :: rest => jsonStringRest rest
    | '\x7b' :: rest => jsonObjectRest fuel rest
    | '[' :: rest => jsonArrayRest fuel rest
    | 't' :: 'r' :: 'u' :: 'e' :: rest => some rest
    | 'f' :: 'a' :: 'l' :: 's' :: 'e' :: rest => some rest
    | 'n' :: 'u' :: 'l' :: 'l' :: rest => some rest
    | c :: rest => if isNumberChar c then some (munchNumber rest) else none

/-- Scan a JSON object after its opening brace. -/
def jsonObjectRest : Nat → List Char → Option (List Char)
  | 0, _ => none
  | Nat.succ fuel, cs =>
    match skipJsonWs cs with
    | '\x7d' :: rest => some rest
    | cs2 => jsonMembersRest fuel cs2

/-- Scan the members of a JSON object, ending at the closing brace. -/
def jsonMembersRest : Nat → List Char → Option (List Char)
  | 0, _ => none
  | Nat.succ fuel, cs =>
    match skipJsonWs cs with
    | '"' :: rest =>
      match jsonStringRest rest with
      | none => none
      | some afterKey =>
        match skipJsonWs afterKey with
        | ':' :: afterColon =>
          match jsonValueRest fuel afterColon with
          | none => none
          | some afterVal =>
            match skipJsonWs afterVal with
            | ',' :: next => jsonMembersRest fuel next
            | '\x7d' :: rest2 => some rest2
            | _ => none
        | _ => none
    | _ => none

/-- Scan a JSON array after its opening bracket. -/
def jsonArrayRest : Nat → List Char → Option (List Char)
  | 0, _ => none
  | Nat.succ fuel, cs =>
    match skipJsonWs cs with
    | ']' :: rest => some rest
    | cs2 => jsonElementsRest fuel cs2

/-- Scan the elements of a JSON array, ending at the closing bracket. -/
def jsonElementsRest : Nat → List Char → Option (List Char)
  | 0, _ => none
  | Nat.succ fuel, cs =>
    match jsonValueRest fuel cs with
    | none => none
    | some afterVal =>
      match skipJsonWs afterVal with
      | ',' :: next => jsonElementsRest fuel next
      | ']' :: rest => some rest
      | _ => none

end

/-- Whether the whole string is one syntactically complete JSON value
(with generous fuel: nesting depth is bounded by the length). -/
def isCompleteJsonValue (s : String) : Bool :=
  match jsonValueRest (3 * (s.length + 1)) s.toList with
  | some rest => (skipJsonWs rest).isEmpty
  | none => false

/-- Modelled from the spec: the decoded character for a JSON escape. -/
def jsonEscapeChar : Char → Option Char
  | '"' => some '"'
  | '\\' => some '\\'
  | '/' => some '/'
  | 'b' => some '\x08'
  | 'f' => some '\x0c'
  | 'n' => some '\n'
  | 'r' => some '\r'
  | 't' => some '\t'
  | _ => none

/-- Decode a JSON string body after the opening quote; the closing quote
must end the input (the field is exactly one string literal). -/
def jsonStringContent : List Char → Option (List Char)
  | [] => none
  | '"' :: rest => if rest.isEmpty then some [] else none
  | '\\' :: [] => none
  | '\\' :: e :: rest =>
    match jsonEscapeChar e with
    | none => none
    | some d => (jsonStringContent rest).map (fun l => d :: l)
  | c :: rest => (jsonStringContent rest).map (fun l => c :: l)

/-- Modelled from the spec: JSON-decode one JSON string literal back to
the text it denotes. -/
def json_string_decode (s : String) : Option String :=
  match s.toList with
  | '"' :: rest => (jsonStringContent rest).map String.mk
  | _ => none

/-- The six option names the startup loop recognizes. -/
def recognizedNames : List String :=
  ["include-xids", "include-timestamp", "skip-empty-xacts", "only-local",
   "include-rewrites", "include-toast-datum"]

/-- The recognized names whose branch parses the value with `parse_bool`
(all of them except `only-local`). -/
def boolParsedNames : List String :=
  ["include-xids", "include-timestamp", "skip-empty-xacts",
   "include-rewrites", "include-toast-datum"]

/-- An option that the configuration-error claim is about: an unrecognized
name, or a recognized bool-parsed name whose supplied value fails boolean
parsing. -/
def triggersConfigError (e : DefElem) : Bool :=
  !(recognizedNames.contains e.defname) ||
  (boolParsedNames.contains e.defname &&
    (match e.arg with
     | some v => (parse_bool v).isNone
     | none => false))

/-- Column schema of the specification's example table
`test_table(id int primary key, state bool, date timestamp)`. -/
def testTableDesc : List PgAttribute := [
  { attname := "id", atttypid := PgType.int4, attnum := 1, attisdropped := false },
  { attname := "state", atttypid := PgType.bool, attnum := 2, attisdropped := false },
  { attname := "date", atttypid := PgType.other "timestamp" false, attnum := 3, attisdropped := false } ]

/-- The example relation `public.test_table`, not a rewrite target. -/
def testTableRel : RelationInfo :=
  { nspname := "public", relname := "test_table", relrewrite := none, tupdesc := testTableDesc }

/-- The example transaction of the specification's wire-format literal. -/
def exampleTxn : ReorderBufferTXN :=
  { xid := 4542284, commit_time := "2019-02-19 00:52:28.467626-05" }

/-- The example INSERT of `(6, true, '2019-02-14 14:36:20.308138')`; the
host renders the boolean as its canonical one-character form `t`. -/
def exampleInsert : ReorderBufferChange :=
  { action := ChangeAction.insert, oldtuple := none,
    newtuple := some [some (ColumnDatum.inline "6"), some (ColumnDatum.inline "t"),
      some (ColumnDatum.inline "2019-02-14 14:36:20.308138")] }

/-- The byte-for-byte wire-format literal shown in the specification. -/
def specInsertLiteral : String :=
  "\x7b\"pg_change_table\":\"public.test_table\",\"pg_change_tnx_time\":\"2019-02-19 00:52:28.467626-05\",\"pg_change_tnx_id\":4542284,\"pg_change_operation_type\":\"INSERT\",\"id\":6,\"state\":true,\"date\":\"2019-02-14 14:36:20.308138\"\x7d"

/-- The record the source actually emits for the example INSERT: spaces
after the opening brace, each colon, and each comma; a double space around
the operation-tag field; and the operation key spelled `pg_change_type`. -/
def actualInsertLiteral : String :=
  "\x7b \"pg_change_table\": \"public.test_table\", \"pg_change_tnx_time\": \"2019-02-19 00:52:28.467626-05\", \"pg_change_tnx_id\": 4542284,  \"pg_change_type\": \"INSERT\",  \"id\": 6, \"state\": true, \"date\": \"2019-02-14 14:36:20.308138\" \x7d"

/-- A schema whose first column is dropped: `a` (dropped), `b int`. -/
def droppedFirstDesc : List PgAttribute := [
  { attname := "a", atttypid := PgType.int4, attnum := 1, attisdropped := true },
  { attname := "b", atttypid := PgType.int4, attnum := 2, attisdropped := false } ]

/-- Relation `public.t` with the dropped-first-column schema. -/
def droppedFirstRel : RelationInfo :=
  { nspname := "public", relname := "t", relrewrite := none, tupdesc := droppedFirstDesc }

/-- A transaction for the dropped-first-column scenario. -/
def smallTxn : ReorderBufferTXN :=
  { xid := 1, commit_time := "2019-02-19 00:52:28.467626-05" }

/-- INSERT of the row `b = 1` into the dropped-first-column table. -/
def droppedFirstInsert : ReorderBufferChange :=
  { action := ChangeAction.insert, oldtuple := none,
    newtuple := some [none, some (ColumnDatum.inline "1")] }

/-- The record the source emits for that INSERT: note the two consecutive
commas where the dropped first column was skipped but the second column
still prints its `natt > 0` comma. -/
def droppedFirstRecord : String :=
  "\x7b \"pg_change_table\": \"public.t\", \"pg_change_tnx_time\": \"2019-02-19 00:52:28.467626-05\", \"pg_change_tnx_id\": 1,  \"pg_change_type\": \"INSERT\", , \"b\": 1 \x7d"

/-- Default session data with `skip_empty_xacts` turned off. -/
def dataNoSkip : JsonDecodingData :=
  { initialJsonDecodingData with skip_empty_xacts := false }

/-- A concrete transaction for the framing witness. -/
def framingTxn : ReorderBufferTXN :=
  { xid := 7, commit_time := "2020-01-01 00:00:00+00" }

/-- A concrete varlena (text) column for the toast-placeholder witness. -/
def payloadAttr : PgAttribute :=
  { attname := "payload", atttypid := PgType.other "text" true, attnum := 1, attisdropped := false }

/-- C7: for a boolean-typed column value, `print_literal` produces exactly
the unquoted spellings `true`/`false` for the two canonical one-character
truth encodings `t` and `f` the host supplies. -/
theorem bool_literal_spellings :
    print_literal PgType.bool "t" = "true" ∧ print_literal PgType.bool "f" = "false" :=
  ⟨rfl, rfl⟩

/-- C4: for the string-like (generic text category) value `a"b`, whose
textual representation contains a double quote, `print_literal` emits the
quote unescaped — `"a"b"` — which is not a syntactically complete JSON
value and does not JSON-decode back to the original text; the claimed
escape/round-trip property fails on the code (its default branch doubles
only single-quote characters, via `SQL_STR_DOUBLE(ch, false)`). -/
theorem text_quote_not_escaped :
    print_literal (PgType.other "text" true) "a\"b" = "\"a\"b\""
    ∧ isCompleteJsonValue (print_literal (PgType.other "text" true) "a\"b") = false
    ∧ json_string_decode (print_literal (PgType.other "text" true) "a\"b") = none := by
  refine ⟨by decide, by decide, by decide⟩

/-- C3: the source's `only-local` branch is inverted.  Supplied with no
value, startup evaluates `strVal(NULL)` — a null-pointer dereference, not
`only_local := true`; supplied with the value `false`, the value is not
parsed and `only_local` is forced to `true`.  (The filter itself does
behave as claimed once `only_local` is set: a non-local origin is
suppressed.) -/
theorem only_local_option_behavior :
    pg_decode_startup [{ defname := "only-local", arg := none }] =
      Except.error (StartupError.nullValueDereference "only-local")
    ∧ (pg_decode_startup [{ defname := "only-local", arg := some "false" }]).map
        (fun st => st.data.only_local) = Except.ok true
    ∧ pg_decode_filter { initialJsonDecodingData with only_local := true } 5 = true := by
  refine ⟨rfl, rfl, rfl⟩

/-- C2 (counterexample): under default configuration, the record emitted
for the specification's example INSERT is not the byte-for-byte literal
shown in the specification (the code writes interior spaces and spells the
operation key `pg_change_type`, not `pg_change_operation_type`). -/
theorem insert_example_not_spec_literal :
    changeText (pg_decode_change initialJsonDecodingData exampleTxn testTableRel exampleInsert) ≠
      some specInsertLiteral := by
  decide

/-- C2 (amended): under default configuration the record emitted for the
specification's example INSERT is exactly `actualInsertLiteral`: the same
fields in the same order, but with a space after the opening brace, after
each colon and comma, a double space around the operation-tag field, and
the operation key spelled `pg_change_type`. -/
theorem insert_example_actual_output :
    changeText (pg_decode_change initialJsonDecodingData exampleTxn testTableRel exampleInsert) =
      some actualInsertLiteral := by
  decide

/-- C1: with a schema whose first column is dropped, the emitted record
contains two consecutive commas (the comma is keyed to `natt > 0`, not to
whether a previous field was emitted), so it is not a syntactically
complete JSON object; the claimed invariant fails on the code. -/
theorem dropped_first_column_record_not_json :
    changeText (pg_decode_change initialJsonDecodingData smallTxn droppedFirstRel droppedFirstInsert) =
      some droppedFirstRecord
    ∧ isCompleteJsonValue droppedFirstRecord = false := by
  refine ⟨by decide, by decide⟩

/-- C10: a recognized bool-parsed option name (any of the five other than
`only-local`) supplied with no value fails every guarded branch (each
requires `elem->arg != NULL`) and falls through to `reportUnknownParam`:
it is rejected with the unknown-option error, not defaulted and not
reported as a value-parse failure. -/
theorem recognized_name_missing_value_unknown (name : String)
    (hmem : name ∈ boolParsedNames) :
    pg_decode_startup [{ defname := name, arg := none }] =
      Except.error (StartupError.unknownParam name none) := by
  fin_cases hmem <;> rfl

/-- Witness for C10 at the concrete option name `include-xids`. -/
theorem recognized_name_missing_value_unknown_witness :
    pg_decode_startup [{ defname := "include-xids", arg := none }] =
      Except.error (StartupError.unknownParam "include-xids" none) :=
  recognized_name_missing_value_unknown "include-xids" (by decide)

/-- C9: for a change whose action is outside INSERT/UPDATE/DELETE the
switch hits `default: Assert(false)` — modelled as a fatal
internal-consistency error — and `OutputPluginWrite` is never reached, so
no record is emitted. -/
theorem unknown_action_fatal (data : JsonDecodingData) (txn : ReorderBufferTXN)
    (relation : RelationInfo) (change : ReorderBufferChange) (tag : Nat)
    (h : change.action = ChangeAction.otherAction tag) :
    pg_decode_change data txn relation change =
      Except.error ChangeError.assertionFailedUnknownAction := by
  simp [pg_decode_change, changeActionBody, h]

/-- Witness for C9 at a concrete change carrying action tag 9
(`REORDER_BUFFER_CHANGE_TRUNCATE`-like). -/
theorem unknown_action_fatal_witness :
    pg_decode_change initialJsonDecodingData smallTxn droppedFirstRel
      { action := ChangeAction.otherAction 9, oldtuple := none, newtuple := none } =
      Except.error ChangeError.assertionFailedUnknownAction :=
  unknown_action_fatal initialJsonDecodingData smallTxn droppedFirstRel
    { action := ChangeAction.otherAction 9, oldtuple := none, newtuple := none } 9 rfl

/-- C8: for a present-but-externally-stored (toasted) value of a varlena
type in a non-dropped, non-system column, the row encoder with
`include_toast_datum = false` emits the placeholder token
`unchanged-toast-datum`; the emitted field does not depend on the stored
text `t`, so the value is never materialized or emitted. -/
theorem toast_placeholder_field (attr : PgAttribute) (t : String) (skip_nulls : Bool)
    (hdrop : attr.attisdropped = false) (hsys : 0 ≤ attr.attnum)
    (hvar : typisvarlena attr.atttypid = true) :
    tuple_to_json_fields [attr] [some (ColumnDatum.externalOnDisk t)] skip_nulls false =
      " \"" ++ quote_identifier attr.attname ++ "\"" ++ ":" ++ " " ++ "unchanged-toast-datum" := by
  have hns : isSystemColumn attr = false := by
    simp [isSystemColumn]
    omega
  have hr : List.range 1 = [0] := rfl
  simp [tuple_to_json_fields, tupleFieldAt, heap_getattr, isColumnDeleted, isSystemColumn,
        hdrop, hns, hvar, isExternalOnDisk, String.join, hr]
  intro hlt
  omega

/-- Witness for C8 at a concrete text column and stored value. -/
theorem toast_placeholder_field_witness :
    tuple_to_json_fields [payloadAttr] [some (ColumnDatum.externalOnDisk "LARGE-VALUE")] false false =
      " \"payload\"" ++ ":" ++ " " ++ "unchanged-toast-datum" :=
  (toast_placeholder_field payloadAttr "LARGE-VALUE" false rfl (by decide) rfl).trans (by decide)

/-- C5: a transaction processed as begin immediately followed by commit
writes zero output records in every configuration (neither callback writes
to the stream); when `skip_empty_xacts` is false the begin-marker work —
capturing the transaction id and commit timestamp into the session state as
configured — happens at begin, and still no change record is produced. -/
theorem empty_transaction_framing (data : JsonDecodingData) (txn : ReorderBufferTXN) :
    (pg_decode_begin data txn).2 = []
    ∧ (pg_decode_commit (pg_decode_begin data txn).1 txn).2 = []
    ∧ (data.skip_empty_xacts = false →
        (data.include_xids = true → (pg_decode_begin data txn).1.xid = txn.xid)
        ∧ (data.include_timestamp = true →
            (pg_decode_begin data txn).1.commit_time = txn.commit_time)) := by
  unfold pg_decode_begin pg_decode_commit pg_output_begin
  by_cases hskip : data.skip_empty_xacts
  · simp [hskip]
  · simp only [Bool.not_eq_true] at hskip
    refine ⟨by simp [hskip], by simp [hskip], fun _ => ⟨fun hx => ?_, fun ht => ?_⟩⟩
    · by_cases hts : data.include_timestamp <;> simp [hskip, hx, hts]
    · by_cases hx2 : data.include_xids <;> simp [hskip, ht, hx2]

/-- Witness for C5 with `skip_empty_xacts = false` and both metadata
fields enabled. -/
theorem empty_transaction_framing_witness :
    (pg_decode_begin dataNoSkip framingTxn).2 = []
    ∧ (pg_decode_commit (pg_decode_begin dataNoSkip framingTxn).1 framingTxn).2 = []
    ∧ (pg_decode_begin dataNoSkip framingTxn).1.xid = 7
    ∧ (pg_decode_begin dataNoSkip framingTxn).1.commit_time = "2020-01-01 00:00:00+00" := by
  have h := empty_transaction_framing dataNoSkip framingTxn
  exact ⟨h.1, h.2.1, (h.2.2 rfl).1 rfl, (h.2.2 rfl).2 rfl⟩

/-- An option whose name matches none of the six recognized names takes
the final `else` branch: `reportUnknownParam`. -/
theorem processOption_unknown_name (st : StartupState) (e : DefElem)
    (h : recognizedNames.contains e.defname = false) :
    processOption st e = Except.error (StartupError.unknownParam e.defname e.arg) := by
  simp [recognizedNames, List.contains, List.any] at h
  obtain ⟨h1, h2, h3, h4, h5, h6⟩ := h
  simp [processOption, hasParameter, h1, h2, h3, h4, h5, h6]

/-- A bool-parsed option name supplied with a value that fails
`parse_bool` is reported through `reportErrorInvalidParam`. -/
theorem processOption_value_parse_failure (st : StartupState) (name v : String)
    (hmem : name ∈ boolParsedNames) (hv : parse_bool v = none) :
    processOption st { defname := name, arg := some v } =
      Except.error (StartupError.invalidParamValue name (some v)) := by
  fin_cases hmem <;>
    simp [processOption, hasParameter, parseBoolArg, hv, Except.map]

/-- When the argument is present, an error coming out of the
`parse_bool(strVal(elem->arg), ...)` idiom is exactly the invalid-value
report for this option. -/
theorem parseBoolArg_map_error_of_isSome (e : DefElem) (f : Bool → StartupState)
    (err : StartupError) (hsome : e.arg.isSome = true)
    (h : (parseBoolArg e).map f = Except.error err) :
    err = StartupError.invalidParamValue e.defname e.arg := by
  rcases e with ⟨n, a⟩
  rcases a with _ | v
  · simp at hsome
  · rcases hpb : parse_bool v with _ | b <;>
      simp [parseBoolArg, hpb, Except.map] at h
    exact h.symm

/-- Classification of startup-option failures: provided `only-local` is
not supplied bare (which would instead dereference a null value), any
error from one option is one of the two reported configuration errors,
carrying that option's name and value. -/
theorem processOption_error_classify (st : StartupState) (e : DefElem) (err : StartupError)
    (hol : e.defname = "only-local" → e.arg ≠ none)
    (hpo : processOption st e = Except.error err) :
    err = StartupError.unknownParam e.defname e.arg ∨
    err = StartupError.invalidParamValue e.defname e.arg := by
  unfold processOption at hpo
  by_cases h1 : (hasParameter e "include-xids" && e.arg.isSome) = true
  · rw [if_pos h1] at hpo
    have hs : hasParameter e "include-xids" = true ∧ e.arg.isSome = true := by simpa using h1
    exact Or.inr (parseBoolArg_map_error_of_isSome e _ err hs.2 hpo)
  · rw [if_neg h1] at hpo
    by_cases h2 : (hasParameter e "include-timestamp" && e.arg.isSome) = true
    · rw [if_pos h2] at hpo
      have hs : hasParameter e "include-timestamp" = true ∧ e.arg.isSome = true := by
        simpa using h2
      exact Or.inr (parseBoolArg_map_error_of_isSome e _ err hs.2 hpo)
    · rw [if_neg h2] at hpo
      by_cases h3 : (hasParameter e "skip-empty-xacts" && e.arg.isSome) = true
      · rw [if_pos h3] at hpo
        have hs : hasParameter e "skip-empty-xacts" = true ∧ e.arg.isSome = true := by
          simpa using h3
        exact Or.inr (parseBoolArg_map_error_of_isSome e _ err hs.2 hpo)
      · rw [if_neg h3] at hpo
        by_cases h4 : hasParameter e "only-local" = true
        · rw [if_pos h4] at hpo
          have hname : e.defname = "only-local" := by
            simpa [hasParameter] using h4
          rcases harg : e.arg with _ | v
          · exact absurd harg (hol hname)
          · rw [harg] at hpo
            simp at hpo
        · rw [if_neg h4] at hpo
          by_cases h5 : (hasParameter e "include-rewrites" && e.arg.isSome) = true
          · rw [if_pos h5] at hpo
            have hs : hasParameter e "include-rewrites" = true ∧ e.arg.isSome = true := by
              simpa using h5
            exact Or.inr (parseBoolArg_map_error_of_isSome e _ err hs.2 hpo)
          · rw [if_neg h5] at hpo
            by_cases h6 : (hasParameter e "include-toast-datum" && e.arg.isSome) = true
            · rw [if_pos h6] at hpo
              have hs : hasParameter e "include-toast-datum" = true ∧ e.arg.isSome = true := by
                simpa using h6
              exact Or.inr (parseBoolArg_map_error_of_isSome e _ err hs.2 hpo)
            · rw [if_neg h6] at hpo
              simp at hpo
              exact Or.inl hpo.symm

/-- A triggering option (unknown name, or bool-parsed name with a
parse-failing value) is rejected with a configuration error carrying its
own name and value, whatever the accumulated state. -/
theorem processOption_triggered (st : StartupState) (e : DefElem)
    (ht : triggersConfigError e = true) :
    processOption st e = Except.error (StartupError.unknownParam e.defname e.arg) ∨
    processOption st e = Except.error (StartupError.invalidParamValue e.defname e.arg) := by
  by_cases hrec : recognizedNames.contains e.defname = true
  · have hrecm : e.defname ∈ recognizedNames := List.mem_of_elem_eq_true hrec
    have hB : e.defname ∈ boolParsedNames ∧
        (match e.arg with
         | some v => (parse_bool v).isNone
         | none => false) = true := by
      have h0 := ht
      unfold triggersConfigError at h0
      simpa [hrecm] using h0
    rcases harg : e.arg with _ | v
    · have hval := hB.2
      rw [harg] at hval
      simp at hval
    · have hval := hB.2
      rw [harg] at hval
      have hv : parse_bool v = none := by
        simpa [Option.isNone_iff_eq_none] using hval
      right
      have hres := processOption_value_parse_failure st e.defname v hB.1 hv
      rcases e with ⟨n, a⟩
      simp only at harg
      subst harg
      simpa using hres
  · left
    exact processOption_unknown_name st e (by simpa using hrec)

/-- Every option either applies cleanly or aborts with one of the two
reported configuration errors, provided `only-local` is not supplied
bare (which would instead dereference a null value). -/
theorem processOption_ok_or_reported (st : StartupState) (e : DefElem)
    (hol : e.defname = "only-local" → e.arg ≠ none) :
    (∃ st2, processOption st e = Except.ok st2) ∨
    processOption st e = Except.error (StartupError.unknownParam e.defname e.arg) ∨
    processOption st e = Except.error (StartupError.invalidParamValue e.defname e.arg) := by
  cases hpo : processOption st e with
  | ok st2 => exact Or.inl ⟨st2, rfl⟩
  | error err =>
    rcases processOption_error_classify st e err hol hpo with h | h
    · exact Or.inr (Or.inl (congrArg Except.error h))
    · exact Or.inr (Or.inr (congrArg Except.error h))

/-- The option-processing loop, started from any state, aborts with a
reported configuration error for some listed option whenever the list
contains a triggering option and no bare `only-local`. -/
theorem startupFold_reports_bad (options : List DefElem) :
    ∀ st : StartupState,
    (∀ e ∈ options, e.defname = "only-local" → e.arg ≠ none) →
    (∃ e ∈ options, triggersConfigError e = true) →
    ∃ e ∈ options,
      startupFold st options = Except.error (StartupError.unknownParam e.defname e.arg) ∨
      startupFold st options = Except.error (StartupError.invalidParamValue e.defname e.arg) := by
  induction options with
  | nil =>
    intro st _ hbad
    simp at hbad
  | cons e rest ih =>
    intro st hol hbad
    rcases processOption_ok_or_reported st e (hol e (by simp)) with ⟨st2, hok⟩ | herr | herr
    · have hnotrig : triggersConfigError e = false := by
        rcases ht : triggersConfigError e with _ | _
        · rfl
        · rcases processOption_triggered st e ht with hbadres | hbadres <;>
            simp [hok] at hbadres
      obtain ⟨b, hbmem, hbtrig⟩ := hbad
      have hbrest : b ∈ rest := by
        rcases List.mem_cons.mp hbmem with hbe | hbr
        · rw [hbe] at hbtrig
          rw [hbtrig] at hnotrig
          exact absurd hnotrig (by simp)
        · exact hbr
      obtain ⟨w, hwmem, hw⟩ :=
        ih st2 (fun x hx => hol x (List.mem_cons_of_mem _ hx)) ⟨b, hbrest, hbtrig⟩
      refine ⟨w, List.mem_cons_of_mem _ hwmem, ?_⟩
      simpa [startupFold, hok] using hw
    · exact ⟨e, by simp, Or.inl (by simp [startupFold, herr])⟩
    · exact ⟨e, by simp, Or.inr (by simp [startupFold, herr])⟩

/-- C6 (counterexample): a list that contains an unknown-named option but
also a bare `only-local` before it makes startup dereference a null value
(modelled as `nullValueDereference`) instead of raising a configuration
error reporting the offending name and value. -/
theorem startup_bad_option_after_bare_only_local :
    pg_decode_startup [{ defname := "only-local", arg := none },
                       { defname := "zzz", arg := some "x" }] =
      Except.error (StartupError.nullValueDereference "only-local") := by
  rfl

/-- C6 (amended): for every startup option list that contains an option
with an unrecognized name or a bool-parsed option whose value fails
boolean parsing — and in which `only-local`, if present, carries a value —
startup aborts with an unrecoverable configuration error reporting an
offending option's name and value, before any session output exists. -/
theorem startup_rejects_bad_options (options : List DefElem)
    (hol : ∀ e ∈ options, e.defname = "only-local" → e.arg ≠ none)
    (hbad : ∃ e ∈ options, triggersConfigError e = true) :
    ∃ e ∈ options,
      pg_decode_startup options = Except.error (StartupError.unknownParam e.defname e.arg) ∨
      pg_decode_startup options = Except.error (StartupError.invalidParamValue e.defname e.arg) :=
  startupFold_reports_bad options _ hol hbad

/-- Witness for C6 (amended) at a concrete two-option list: a well-formed
option followed by an unknown one. -/
theorem startup_rejects_bad_options_witness :
    ∃ e ∈ [({ defname := "include-xids", arg := some "false" } : DefElem),
           { defname := "bogus", arg := some "x" }],
      pg_decode_startup [({ defname := "include-xids", arg := some "false" } : DefElem),
           { defname := "bogus", arg := some "x" }] =
        Except.error (StartupError.unknownParam e.defname e.arg) ∨
      pg_decode_startup [({ defname := "include-xids", arg := some "false" } : DefElem),
           { defname := "bogus", arg := some "x" }] =
        Except.error (StartupError.invalidParamValue e.defname e.arg) :=
  startup_rejects_bad_options
    [{ defname := "include-xids", arg := some "false" }, { defname := "bogus", arg := some "x" }]
    (by decide) (by decide)
